import Mathlib

/-!
Verification of the Finley backend (`src/app.py`): a single FastAPI endpoint
`POST /ask` that forwards a question to an Azure OpenAI chat-completion call
augmented with an Azure Search data source, reads the first choice's message
content as the answer, and best-effort extracts a citation list from the
message's `context` / `tool_calls` auxiliary fields.

The embedding models the loosely-structured response payload as a JSON-like
value type `JValue`, and models the Python operations the extraction code
performs (`in` membership, `[...]` indexing, iteration, `list.extend`,
truthiness) as functions into `Except Unit` so that the `try/except` blocks
of the source can be rendered faithfully.
-/

/-- A JSON-like dynamic value, modelling the loosely-typed Python data the
response payload carries (`None`, strings, numbers, booleans, lists, dicts). -/
inductive JValue where
  | null : JValue
  | str (s : String) : JValue
  | num (n : Int) : JValue
  | bool (b : Bool) : JValue
  | arr (xs : List JValue) : JValue
  | obj (fields : List (String × JValue)) : JValue
deriving Repr

mutual

/-- Structural equality test on `JValue` (Python `==` on these values). -/
def JValue.beq : JValue → JValue → Bool
  | .null, .null => true
  | .str a, .str b => a == b
  | .num a, .num b => a == b
  | .bool a, .bool b => a == b
  | .arr xs, .arr ys => JValue.beqList xs ys
  | .obj fs, .obj gs => JValue.beqFields fs gs
  | _, _ => false

/-- Elementwise equality of `JValue` lists. -/
def JValue.beqList : List JValue → List JValue → Bool
  | [], [] => true
  | x :: xs, y :: ys => JValue.beq x y && JValue.beqList xs ys
  | _, _ => false

/-- Elementwise equality of `JValue` field lists. -/
def JValue.beqFields : List (String × JValue) → List (String × JValue) → Bool
  | [], [] => true
  | (k, v) :: fs, (l, w) :: gs => k == l && JValue.beq v w && JValue.beqFields fs gs
  | _, _ => false

end

instance : BEq JValue := ⟨JValue.beq⟩

/-- Python truthiness (`if context:` / `if tool_calls:` in `app.py` lines 98
and 116): `None`, `0`, `""`, `[]`, `{ }` are falsy, everything else truthy. -/
def truthy : JValue → Bool
  | .null => false
  | .bool b => b
  | .num n => n != 0
  | .str s => s != ""
  | .arr xs => !xs.isEmpty
  | .obj fs => !fs.isEmpty

/-- Substring test on strings, modelling Python's `"k" in s` for strings. -/
def strIn (pat s : String) : Bool :=
  (List.range (s.toList.length + 1)).any fun i =>
    (s.toList.drop i).take pat.toList.length == pat.toList

/-- Python's `k in v` membership test for a string key `k`: key lookup on a
dict, element membership on a list, substring test on a string; raises
`TypeError` (error) on `None`, numbers and booleans. -/
def pyContains (v : JValue) (k : String) : Except Unit Bool :=
  match v with
  | .obj fs => .ok (fs.any fun p => p.1 == k)
  | .arr xs => .ok (xs.any fun x => x == .str k)
  | .str s => .ok (strIn k s)
  | _ => .error ()

/-- Python's `v[k]` indexing with a string key: dict lookup (KeyError when the
key is missing); `TypeError` (error) on every non-dict value. -/
def pyIndex (v : JValue) (k : String) : Except Unit JValue :=
  match v with
  | .obj fs =>
    match fs.find? (fun p => p.1 == k) with
    | some p => .ok p.2
    | none => .error ()
  | _ => .error ()

/-- Python iteration `for x in v`: a list yields its elements, a string its
characters, a dict its keys; `None`, numbers and booleans are not iterable. -/
def iterElems : JValue → Except Unit (List JValue)
  | .arr xs => .ok xs
  | .str s => .ok (s.toList.map fun c => .str (String.mk [c]))
  | .obj fs => .ok (fs.map fun p => .str p.1)
  | _ => .error ()

/-- Python's `acc.extend(v)`: `acc` must be a list (`AttributeError`
otherwise), `v` must be iterable; appends the elements of `v` to `acc`. -/
def listExtend (acc v : JValue) : Except Unit JValue :=
  match acc with
  | .arr xs =>
    match iterElems v with
    | .ok ys => .ok (.arr (xs ++ ys))
    | .error e => .error e
  | _ => .error ()

/-- Reads a Python `str`; errors on any other value (models `json.loads`
raising `TypeError` when handed a non-string). -/
def asStr : JValue → Except Unit String
  | .str s => .ok s
  | _ => .error ()

/-- The first-choice message of the upstream response as the extraction code
sees it: `content` (a `none` field models a missing attribute, whose access
raises; `some .null` models `content = None`), and the two auxiliary
attributes read via `getattr(..., "x", None)` — so a missing attribute and an
attribute set to `None` both appear as `JValue.null`. -/
structure ChatMessage where
  content : Option JValue
  context : JValue
  tool_calls : JValue

/-- One element of the upstream response's `choices` array. -/
structure Choice where
  message : ChatMessage

/-- The upstream chat-completion response shape the handler reads. -/
structure ChatResponse where
  choices : List Choice

/-- `app.py` lines 107–113: the inner `try` around `json.loads(msg["content"])`.
`loads` models `json.loads` (success or parse failure). Any error inside the
block — non-string content, parse failure, `"citations" in citation_json` on a
non-container, or a failing `extend` — is swallowed and the accumulator is
returned unchanged. -/
def innerTry (loads : String → Option JValue) (citations msg : JValue) : JValue :=
  match
    (match pyIndex msg "content" with
     | .error e => .error e
     | .ok c =>
       match asStr c with
       | .error e => .error e
       | .ok s =>
         match loads s with
         | none => .error ()
         | some citation_json =>
           match pyContains citation_json "citations" with
           | .error e => .error e
           | .ok true =>
             match pyIndex citation_json "citations" with
             | .error e => .error e
             | .ok v => listExtend citations v
           | .ok false => .ok citations : Except Unit JValue)
  with
  | .ok c => c
  | .error _ => citations

/-- `app.py` lines 104–113: the `for msg in context["messages"]` loop. Each
entry with a `citations` field extends the accumulator (errors here escape to
the outer `try`); otherwise an entry with a `content` field runs the inner
`try`; other entries contribute nothing. -/
def processMessages (loads : String → Option JValue) :
    JValue → List JValue → Except Unit JValue
  | citations, [] => .ok citations
  | citations, msg :: rest =>
    match pyContains msg "citations" with
    | .error e => .error e
    | .ok true =>
      match pyIndex msg "citations" with
      | .error e => .error e
      | .ok v =>
        match listExtend citations v with
        | .error e => .error e
        | .ok citations2 => processMessages loads citations2 rest
    | .ok false =>
      match pyContains msg "content" with
      | .error e => .error e
      | .ok true => processMessages loads (innerTry loads citations msg) rest
      | .ok false => processMessages loads citations rest

/-- `app.py` lines 117–119: the `for call in tool_calls` loop; every call with
a `citations` field extends the accumulator. -/
def processToolCalls : JValue → List JValue → Except Unit JValue
  | citations, [] => .ok citations
  | citations, call :: rest =>
    match pyContains call "citations" with
    | .error e => .error e
    | .ok true =>
      match pyIndex call "citations" with
      | .error e => .error e
      | .ok v =>
        match listExtend citations v with
        | .error e => .error e
        | .ok citations2 => processToolCalls citations2 rest
    | .ok false => processToolCalls citations rest

/-- `app.py` lines 97–113: `context = getattr(message, "context", None)`;
if truthy, an `if "citations" in context / elif "messages" in context`
cascade: the `citations` branch REPLACES the accumulator with
`context["citations"]` (whatever value that is), the `messages` branch runs
the per-entry loop. -/
def contextPhase (loads : String → Option JValue) (context citations : JValue) :
    Except Unit JValue :=
  if truthy context then
    match pyContains context "citations" with
    | .error e => .error e
    | .ok true => pyIndex context "citations"
    | .ok false =>
      match pyContains context "messages" with
      | .error e => .error e
      | .ok true =>
        match pyIndex context "messages" with
        | .error e => .error e
        | .ok msgsV =>
          match iterElems msgsV with
          | .error e => .error e
          | .ok msgs => processMessages loads citations msgs
      | .ok false => .ok citations
  else .ok citations

/-- `app.py` lines 114–119: `tool_calls = getattr(message, "tool_calls", None)`;
if truthy, iterate and extend from every call carrying a `citations` field. -/
def toolPhase (tool_calls citations : JValue) : Except Unit JValue :=
  if truthy tool_calls then
    match iterElems tool_calls with
    | .error e => .error e
    | .ok calls => processToolCalls citations calls
  else .ok citations

/-- The body of the outer `try` (`app.py` lines 96–119), starting from the
empty accumulator of line 92. -/
def extractCitationsE (loads : String → Option JValue) (m : ChatMessage) :
    Except Unit JValue :=
  match contextPhase loads m.context (.arr []) with
  | .error e => .error e
  | .ok citations => toolPhase m.tool_calls citations

/-- `app.py` lines 92–123: `citations = []`; when `show_citations`, run the
extraction inside `try/except`, any exception resetting the result to `[]`. -/
def extractCitations (loads : String → Option JValue) (m : ChatMessage)
    (show_citations : Bool) : JValue :=
  if show_citations then
    match extractCitationsE loads m with
    | .ok c => c
    | .error _ => .arr []
  else .arr []

/-- The fixed system persona instruction of `app.py` lines 45–53 (Python
concatenates the adjacent string literals). -/
def system_prompt : String :=
  "You are Finley, an AI-powered financial advisor assistant. " ++
  "Always refer to yourself as \x27Finley\x27 in every response. " ++
  "You are knowledgeable, concise, and professional — capable of explaining financial policies, interpreting stock reports, retrieving company filings, and analyzing both structured and unstructured financial data. " ++
  "You provide clear, actionable, and unbiased insights without offering personal opinions or investment advice. " ++
  "Your tone is intelligent, confident, and respectful — never casual, overly technical, or speculative. " ++
  "Always prioritize accuracy, compliance, and clarity. " ++
  "When unsure or when asked for regulated financial advice, clearly state your limitations and recommend consulting a licensed human advisor. "

/-- One entry of the outbound `messages` array: a role and a content string. -/
structure PromptMessage where
  role : String
  content : String
deriving DecidableEq, Repr

/-- `app.py` lines 42–59: the two-message prompt — the fixed system persona
followed by the caller's raw question as the user turn. -/
def build_messages (text : String) : List PromptMessage :=
  [⟨"system", system_prompt⟩, ⟨"user", text⟩]

/-- The generation-relevant arguments of the `client.chat.completions.create`
call (`app.py` lines 77–88). -/
structure CompletionRequest where
  messages : List PromptMessage
  max_tokens : Nat
  temperature : ℚ
  top_p : ℚ
  frequency_penalty : ℚ
  presence_penalty : ℚ
  stop : Option String
  stream : Bool

/-- `app.py` lines 77–88: the outbound completion request as built for a given
question text. -/
def build_request (text : String) : CompletionRequest where
  messages := build_messages text
  max_tokens := 1000
  temperature := 5 / 10
  top_p := 95 / 100
  frequency_penalty := 0
  presence_penalty := 0
  stop := none
  stream := false

/-- `app.py` lines 89–123, given the upstream outcome (`Except.error e` models
the `create` call raising an exception with message `e`): read
`response.choices[0].message.content` as the answer — an empty `choices` list
(IndexError) or a missing `content` attribute raises — then run citation
extraction, and return the `(answer, citations)` pair of line 123. -/
def get_azure_openai_response (loads : String → Option JValue)
    (upstream : Except String ChatResponse) (show_citations : Bool) :
    Except String (JValue × JValue) :=
  match upstream with
  | .error e => .error e
  | .ok response =>
    match response.choices with
    | [] => .error "IndexError: list index out of range"
    | choice :: _ =>
      match choice.message.content with
      | none => .error "AttributeError: content"
      | some answer =>
        .ok (answer, extractCitations loads choice.message show_citations)

/-- The `AskResponse` pydantic model (`app.py` lines 23–25): `answer` must be
a string and `citations` a list. -/
structure AskResponse where
  answer : String
  citations : List JValue

/-- Validation performed by constructing `AskResponse(answer=..., citations=...)`
(line 129): a non-string answer or a non-list citations value raises a
pydantic `ValidationError`. -/
def mkAskResponse (answer citations : JValue) : Except String AskResponse :=
  match answer with
  | .str a =>
    match citations with
    | .arr cs => .ok ⟨a, cs⟩
    | _ => .error "ValidationError"
  | _ => .error "ValidationError"

/-- Outcome of one request to `POST /ask`: either a validated success body or
an `HTTPException` with a status code and a detail string. -/
inductive HandlerResult where
  | success (resp : AskResponse) : HandlerResult
  | httpError (status : Nat) (detail : String) : HandlerResult

/-- `app.py` lines 125–131: the `/ask` handler. `upstream` maps the question
to the outcome of the outbound call. Everything inside the `try` — the
upstream call, answer reading, and response validation — is caught and mapped
to an HTTP 500 whose detail is the stringified exception. -/
def ask_endpoint (loads : String → Option JValue)
    (upstream : String → Except String ChatResponse) (question : String) :
    HandlerResult :=
  match
    (match get_azure_openai_response loads (upstream question) true with
     | .error e => .error e
     | .ok (answer, citations) => mkAskResponse answer citations :
      Except String AskResponse)
  with
  | .ok r => .success r
  | .error e => .httpError 500 e

/-- Modelled from the claim wording (for comparison with the code): the
`context.citations` source — the contents of the context's `citations` field,
when the context carries one as a list. -/
def spec_context_citations (context : JValue) : List JValue :=
  match context with
  | .obj fs =>
    match fs.find? (fun p => p.1 == "citations") with
    | some p =>
      match p.2 with
      | .arr cs => cs
      | _ => []
    | none => []
  | _ => []

/-- Modelled from the claim wording: citations gathered from one
`context.messages` entry — its `citations` field's contents, else the
`citations` found inside its parsed `content`. -/
def spec_entry_citations (loads : String → Option JValue) (msg : JValue) :
    List JValue :=
  match msg with
  | .obj fs =>
    match fs.find? (fun p => p.1 == "citations") with
    | some p =>
      match p.2 with
      | .arr cs => cs
      | _ => []
    | none =>
      match fs.find? (fun p => p.1 == "content") with
      | some p =>
        match p.2 with
        | .str s =>
          match loads s with
          | some (.obj gs) =>
            match gs.find? (fun q => q.1 == "citations") with
            | some q =>
              match q.2 with
              | .arr cs => cs
              | _ => []
            | none => []
          | _ => []
        | _ => []
      | none => []
  | _ => []

/-- Modelled from the claim wording: citations gathered from the
`context.messages` entries, in order. -/
def spec_messages_citations (loads : String → Option JValue)
    (context : JValue) : List JValue :=
  match context with
  | .obj fs =>
    match fs.find? (fun p => p.1 == "messages") with
    | some p =>
      match p.2 with
      | .arr msgs => (msgs.map (spec_entry_citations loads)).flatten
      | _ => []
    | none => []
  | _ => []

/-- Modelled from the claim wording: citations gathered from the `tool_calls`
entries — each call carrying a `citations` field contributes its contents. -/
def spec_tool_citations (tool_calls : JValue) : List JValue :=
  match tool_calls with
  | .arr calls =>
    (calls.map fun call =>
      match call with
      | .obj fs =>
        match fs.find? (fun p => p.1 == "citations") with
        | some p =>
          match p.2 with
          | .arr cs => cs
          | _ => []
        | none => []
      | _ => []).flatten
  | _ => []

/-- Pure gather over a list of well-shaped tool calls (each a dict; each
`citations` field a list): the concatenation of their `citations` contents,
`none` when some call is not of that shape. -/
def toolGather : List JValue → Option (List JValue)
  | [] => some []
  | call :: rest =>
    match call with
    | .obj fs =>
      match fs.find? (fun p => p.1 == "citations") with
      | some p =>
        match p.2 with
        | .arr cs => (toolGather rest).map (cs ++ ·)
        | _ => none
      | none => toolGather rest
    | _ => none

/-- The length of a `JValue` list, `0` on other values. -/
def jlen : JValue → Nat
  | .arr xs => xs.length
  | _ => 0

theorem find?_some_any {fs : List (String × JValue)} {k : String}
    {p : String × JValue} (hf : fs.find? (fun q => q.1 == k) = some p) :
    fs.any (fun q => q.1 == k) = true := by
  have hp := List.find?_some hf
  exact List.any_eq_true.mpr ⟨p, List.mem_of_find?_eq_some hf, hp⟩

theorem find?_none_any {fs : List (String × JValue)} {k : String}
    (hf : fs.find? (fun q => q.1 == k) = none) :
    fs.any (fun q => q.1 == k) = false := by
  rw [List.any_eq_false]
  intro p hp
  have := List.find?_eq_none.mp hf p hp
  simpa using this

theorem processToolCalls_gather (calls : List JValue) :
    ∀ acc ts, toolGather calls = some ts →
      processToolCalls (.arr acc) calls = .ok (.arr (acc ++ ts)) := by
  induction calls with
  | nil =>
    intro acc ts h
    simp [toolGather] at h
    simp [processToolCalls, ← h]
  | cons call rest ih =>
    intro acc ts h
    cases call with
    | obj fs =>
      rcases hf : fs.find? (fun q => q.1 == "citations") with _ | ⟨k, v⟩
      · have h' : toolGather rest = some ts := by
          simpa [toolGather, hf] using h
        simp only [processToolCalls, pyContains, find?_none_any hf]
        exact ih acc ts h'
      · cases v with
        | arr cs =>
          have h' : (toolGather rest).map (cs ++ ·) = some ts := by
            simpa [toolGather, hf] using h
          rcases hrest : toolGather rest with _ | ts0
          · rw [hrest] at h'; simp at h'
          · rw [hrest] at h'
            simp only [Option.map_some', Option.some.injEq] at h'
            simp only [processToolCalls, pyContains, find?_some_any hf,
              pyIndex, hf, listExtend, iterElems]
            rw [ih (acc ++ cs) ts0 hrest, ← h']
            simp [List.append_assoc]
        | null => simp [toolGather, hf] at h
        | str s => simp [toolGather, hf] at h
        | num n => simp [toolGather, hf] at h
        | bool b => simp [toolGather, hf] at h
        | obj gs => simp [toolGather, hf] at h
    | null => simp [toolGather] at h
    | str s => simp [toolGather] at h
    | num n => simp [toolGather] at h
    | bool b => simp [toolGather] at h
    | arr xs => simp [toolGather] at h

theorem toolPhase_gather (calls acc ts : List JValue)
    (hg : toolGather calls = some ts) :
    toolPhase (.arr calls) (.arr acc) = .ok (.arr (acc ++ ts)) := by
  cases calls with
  | nil =>
    simp [toolGather] at hg
    simp [toolPhase, truthy, ← hg]
  | cons c rest =>
    simp only [toolPhase, truthy, List.isEmpty_cons, Bool.not_false, if_true,
      iterElems]
    exact processToolCalls_gather (c :: rest) acc ts hg

/-- C1 counterexample: on a payload whose context carries both a `citations`
field (`[A]`) and a `messages` entry with citations (`[B]`), and whose
tool_calls carry citations (`[C]`), the code returns `[A, C]`, not the
three-source concatenation `[A, B, C]` the claim describes — the `elif` on
`app.py` line 103 makes `context.citations` exclude the `context.messages`
source. -/
theorem C1_counterexample :
    extractCitations (fun _ => none)
      ⟨some (.str "ans"),
       .obj [("citations", .arr [.str "A"]),
             ("messages", .arr [.obj [("citations", .arr [.str "B"])]])],
       .arr [.obj [("citations", .arr [.str "C"])]]⟩ true ≠
    .arr (spec_context_citations
            (.obj [("citations", .arr [.str "A"]),
                   ("messages", .arr [.obj [("citations", .arr [.str "B"])]])]) ++
          spec_messages_citations (fun _ => none)
            (.obj [("citations", .arr [.str "A"]),
                   ("messages", .arr [.obj [("citations", .arr [.str "B"])]])]) ++
          spec_tool_citations (.arr [.obj [("citations", .arr [.str "C"])]])) := by
  intro h
  exact absurd (congrArg jlen h) (by decide)

/-- C1 (amended): when the message's context carries a `citations` field, the
result is the `context.citations` contents followed by the `tool_calls`
citations; the `context.messages` source is excluded (`elif`), and in
particular the result does not depend on any `messages` field of the context. -/
theorem C1_contextCitations_then_toolCalls (loads : String → Option JValue)
    (m : ChatMessage) (cs : List JValue) (calls ts : List JValue)
    (htr : truthy m.context = true)
    (hc : pyContains m.context "citations" = .ok true)
    (hi : pyIndex m.context "citations" = .ok (.arr cs))
    (ht : m.tool_calls = .arr calls)
    (hg : toolGather calls = some ts) :
    extractCitations loads m true = .arr (cs ++ ts) := by
  have hcp : contextPhase loads m.context (.arr []) = .ok (.arr cs) := by
    simp only [contextPhase, htr, if_true, hc, hi]
  have htp : toolPhase m.tool_calls (.arr cs) = .ok (.arr (cs ++ ts)) := by
    rw [ht]; exact toolPhase_gather calls cs ts hg
  simp only [extractCitations, extractCitationsE, hcp, htp, if_true]

/-- C1 witness: concrete run of the amended statement, on the same payload as
the counterexample — the result is `[A, C]`. -/
theorem C1_witness :
    extractCitations (fun _ => none)
      ⟨some (.str "ans"),
       .obj [("citations", .arr [.str "A"]),
             ("messages", .arr [.obj [("citations", .arr [.str "B"])]])],
       .arr [.obj [("citations", .arr [.str "C"])]]⟩ true
      = .arr ([.str "A"] ++ [.str "C"]) :=
  C1_contextCitations_then_toolCalls (fun _ => none)
    ⟨some (.str "ans"),
     .obj [("citations", .arr [.str "A"]),
           ("messages", .arr [.obj [("citations", .arr [.str "B"])]])],
     .arr [.obj [("citations", .arr [.str "C"])]]⟩
    [.str "A"] [.obj [("citations", .arr [.str "C"])]] [.str "C"]
    rfl rfl rfl rfl rfl

/-- C2: citation extraction is a pure, deterministic function of the response
payload — repeated runs on the same payload produce the same citation list,
element for element in the same order. -/
theorem C2_extraction_deterministic (loads : String → Option JValue)
    (m m2 : ChatMessage) (show_citations : Bool) (h : m = m2) :
    extractCitations loads m show_citations =
      extractCitations loads m2 show_citations := by
  rw [h]

/-- C2 witness: two runs on a fixed concrete payload agree. -/
theorem C2_witness :
    extractCitations (fun _ => none) ⟨some (.str "a"), .null, .null⟩ true =
      extractCitations (fun _ => none) ⟨some (.str "a"), .null, .null⟩ true :=
  C2_extraction_deterministic (fun _ => none)
    ⟨some (.str "a"), .null, .null⟩ ⟨some (.str "a"), .null, .null⟩ true rfl

/-- C4: every exception raised by the outbound completion call is mapped by
the `/ask` handler to an HTTP 500 whose detail is the exception's message;
the handler returns normally (it is a total function into `HandlerResult`). -/
theorem C4_upstream_exception_maps_to_500 (loads : String → Option JValue)
    (question e : String) :
    ask_endpoint loads (fun _ => .error e) question = .httpError 500 e := rfl

/-- C7: the outbound request carries exactly two messages — the fixed system
persona then the raw question as the user turn — and the fixed generation
parameters: max tokens 1000, temperature 0.5, top-p 0.95, zero frequency and
presence penalties, no stop sequence, streaming disabled. -/
theorem C7_request_shape (text : String) :
    (build_request text).messages =
      [⟨"system", system_prompt⟩, ⟨"user", text⟩] ∧
    (build_request text).messages.length = 2 ∧
    (build_request text).max_tokens = 1000 ∧
    (build_request text).temperature = 1 / 2 ∧
    (build_request text).top_p = 95 / 100 ∧
    (build_request text).frequency_penalty = 0 ∧
    (build_request text).presence_penalty = 0 ∧
    (build_request text).stop = none ∧
    (build_request text).stream = false := by
  refine ⟨rfl, rfl, rfl, by norm_num [build_request], by norm_num [build_request],
    rfl, rfl, rfl, rfl⟩

/-- C3: for a non-empty question, when the upstream call succeeds and the
handler produces a success response, its `answer` field is exactly the first
choice's message content, with no transformation applied. -/
theorem C3_answer_unmodified (loads : String → Option JValue)
    (upstream : String → Except String ChatResponse) (question : String)
    (resp : ChatResponse) (choice : Choice) (rest : List Choice)
    (a : String) (out : AskResponse)
    (hq : question ≠ "")
    (hu : upstream question = .ok resp)
    (hch : resp.choices = choice :: rest)
    (hco : choice.message.content = some (.str a))
    (hs : ask_endpoint loads upstream question = .success out) :
    out.answer = a := by
  simp only [ask_endpoint, get_azure_openai_response, hu, hch, hco] at hs
  rcases hext : extractCitations loads choice.message true with _ | s | n | b | cs | fs <;>
    rw [hext] at hs <;> simp only [mkAskResponse] at hs
  · exact absurd hs (by simp)
  · exact absurd hs (by simp)
  · exact absurd hs (by simp)
  · exact absurd hs (by simp)
  · injection hs with h1
    rw [← h1]
  · exact absurd hs (by simp)

/-- C3 witness: a concrete successful run, where the upstream content is
`"ans"` and the handler's success body carries answer `"ans"`. -/
theorem C3_witness :
    (⟨"ans", []⟩ : AskResponse).answer = "ans" :=
  C3_answer_unmodified (fun _ => none)
    (fun _ => .ok ⟨[⟨⟨some (.str "ans"), .null, .null⟩⟩]⟩) "q"
    ⟨[⟨⟨some (.str "ans"), .null, .null⟩⟩]⟩
    ⟨⟨some (.str "ans"), .null, .null⟩⟩ [] "ans" ⟨"ans", []⟩
    (by decide) rfl rfl rfl rfl

/-- C5: an error raised during the citation-extraction phase is absorbed: the
extraction result degrades to the empty list and the handler still returns a
success response carrying the extracted answer. -/
theorem C5_extraction_error_absorbed (loads : String → Option JValue)
    (upstream : String → Except String ChatResponse) (question : String)
    (resp : ChatResponse) (choice : Choice) (rest : List Choice)
    (a : String) (e : Unit)
    (hu : upstream question = .ok resp)
    (hch : resp.choices = choice :: rest)
    (hco : choice.message.content = some (.str a))
    (he : extractCitationsE loads choice.message = .error e) :
    extractCitations loads choice.message true = .arr [] ∧
      ask_endpoint loads upstream question = .success ⟨a, []⟩ := by
  have hext : extractCitations loads choice.message true = .arr [] := by
    simp [extractCitations, he]
  refine ⟨hext, ?_⟩
  simp [ask_endpoint, get_azure_openai_response, hu, hch, hco, hext, mkAskResponse]

/-- C5 witness: a context that is truthy but not a container (`context = 1`)
makes the membership test raise; the error is absorbed and the handler still
answers successfully with an empty citation list. -/
theorem C5_witness :
    extractCitations (fun _ => none) ⟨some (.str "a"), .num 1, .null⟩ true
        = .arr [] ∧
      ask_endpoint (fun _ => none)
        (fun _ => .ok ⟨[⟨⟨some (.str "a"), .num 1, .null⟩⟩]⟩) "q"
        = .success ⟨"a", []⟩ :=
  C5_extraction_error_absorbed (fun _ => none)
    (fun _ => .ok ⟨[⟨⟨some (.str "a"), .num 1, .null⟩⟩]⟩) "q"
    ⟨[⟨⟨some (.str "a"), .num 1, .null⟩⟩]⟩
    ⟨⟨some (.str "a"), .num 1, .null⟩⟩ [] "a" ()
    rfl rfl rfl rfl

/-- C8: when the upstream response lacks a first completion choice with a
message content field — empty `choices`, or a first choice whose message has
no `content` attribute — reading the answer raises and the error surfaces at
the request boundary as an HTTP 500; it is not absorbed into a success with
empty citations. -/
theorem C8_missing_answer_propagates (loads : String → Option JValue)
    (upstream : String → Except String ChatResponse) (question : String)
    (resp : ChatResponse)
    (hu : upstream question = .ok resp)
    (hshape : resp.choices = [] ∨
      ∃ choice rest, resp.choices = choice :: rest ∧
        choice.message.content = none) :
    ∃ d, ask_endpoint loads upstream question = .httpError 500 d := by
  rcases hshape with h | ⟨choice, rest, h, hco⟩
  · refine ⟨"IndexError: list index out of range", ?_⟩
    simp [ask_endpoint, get_azure_openai_response, hu, h]
  · refine ⟨"AttributeError: content", ?_⟩
    simp [ask_endpoint, get_azure_openai_response, hu, h, hco]

/-- C8 witness: an upstream response with an empty `choices` list yields an
HTTP 500 from the handler. -/
theorem C8_witness :
    ∃ d, ask_endpoint (fun _ => none) (fun _ => .ok ⟨[]⟩) "q"
      = .httpError 500 d :=
  C8_missing_answer_propagates (fun _ => none) (fun _ => .ok ⟨[]⟩) "q"
    ⟨[]⟩ rfl (Or.inl rfl)

/-- C9: a context that is present but an empty mapping is falsy, so neither
context branch contributes, while `tool_calls` are still inspected: the
result is exactly the tool-call citations. -/
theorem C9_empty_context_tool_calls (loads : String → Option JValue)
    (m : ChatMessage) (calls ts : List JValue)
    (hc : m.context = .obj [])
    (ht : m.tool_calls = .arr calls)
    (hg : toolGather calls = some ts) :
    extractCitations loads m true = .arr ts := by
  have hcp : contextPhase loads m.context (.arr []) = .ok (.arr []) := by
    simp [contextPhase, hc, truthy]
  have htp : toolPhase m.tool_calls (.arr []) = .ok (.arr ts) := by
    rw [ht]
    have := toolPhase_gather calls [] ts hg
    simpa using this
  simp only [extractCitations, extractCitationsE, hcp, htp, if_true]

/-- C9 witness: empty context, tool_calls carrying `[C]` — the extraction
returns exactly `[C]`. -/
theorem C9_witness :
    extractCitations (fun _ => none)
      ⟨some (.str "a"), .obj [], .arr [.obj [("citations", .arr [.str "C"])]]⟩
      true = .arr [.str "C"] :=
  C9_empty_context_tool_calls (fun _ => none)
    ⟨some (.str "a"), .obj [], .arr [.obj [("citations", .arr [.str "C"])]]⟩
    [.obj [("citations", .arr [.str "C"])]] [.str "C"] rfl rfl rfl

/-- C10: when the first choice's message content is present but not a string
(e.g. `None`), the handler never returns a success body with a null answer:
response validation fails inside the `try` and the caller receives the
HTTP 500 error. -/
theorem C10_null_answer_never_success (loads : String → Option JValue)
    (upstream : String → Except String ChatResponse) (question : String)
    (resp : ChatResponse) (choice : Choice) (rest : List Choice) (v : JValue)
    (hu : upstream question = .ok resp)
    (hch : resp.choices = choice :: rest)
    (hco : choice.message.content = some v)
    (hv : ∀ s, v ≠ .str s) :
    ask_endpoint loads upstream question = .httpError 500 "ValidationError" := by
  simp only [ask_endpoint, get_azure_openai_response, hu, hch, hco]
  cases v with
  | str s => exact absurd rfl (hv s)
  | null => simp [mkAskResponse]
  | num n => simp [mkAskResponse]
  | bool b => simp [mkAskResponse]
  | arr xs => simp [mkAskResponse]
  | obj fs => simp [mkAskResponse]

/-- C10 witness: a `None` content yields the 500 validation failure. -/
theorem C10_witness :
    ask_endpoint (fun _ => none) (fun _ => .ok ⟨[⟨⟨some .null, .null, .null⟩⟩]⟩)
      "q" = .httpError 500 "ValidationError" :=
  C10_null_answer_never_success (fun _ => none)
    (fun _ => .ok ⟨[⟨⟨some .null, .null, .null⟩⟩]⟩) "q"
    ⟨[⟨⟨some .null, .null, .null⟩⟩]⟩ ⟨⟨some .null, .null, .null⟩⟩ [] .null
    rfl rfl rfl (by intro s h; exact JValue.noConfusion h)

/-- C6: per-entry behavior of the `context.messages` loop. (1) An entry with a
`citations` field has its contents appended to the accumulator and the loop
continues on the remaining entries. (2) An entry without one but with a
`content` field whose content fails to parse contributes nothing — the
remaining entries are still processed from the same accumulator. (3) When the
content parses to a document with a `citations` field, its contents are
appended and the loop continues. -/
theorem C6_messages_entries (loads : String → Option JValue) :
    (∀ msg rest acc cv cs,
      pyContains msg "citations" = .ok true →
      pyIndex msg "citations" = .ok cv →
      iterElems cv = .ok cs →
      processMessages loads (.arr acc) (msg :: rest) =
        processMessages loads (.arr (acc ++ cs)) rest) ∧
    (∀ msg rest citations c,
      pyContains msg "citations" = .ok false →
      pyContains msg "content" = .ok true →
      pyIndex msg "content" = .ok c →
      (∀ s, c = .str s → loads s = none) →
      processMessages loads citations (msg :: rest) =
        processMessages loads citations rest) ∧
    (∀ msg rest acc s j jc cs,
      pyContains msg "citations" = .ok false →
      pyContains msg "content" = .ok true →
      pyIndex msg "content" = .ok (.str s) →
      loads s = some j →
      pyContains j "citations" = .ok true →
      pyIndex j "citations" = .ok jc →
      iterElems jc = .ok cs →
      processMessages loads (.arr acc) (msg :: rest) =
        processMessages loads (.arr (acc ++ cs)) rest) := by
  refine ⟨?_, ?_, ?_⟩
  · intro msg rest acc cv cs h1 h2 h3
    simp only [processMessages, h1, h2, listExtend, h3]
  · intro msg rest citations c h1 h2 h3 hparse
    have hin : innerTry loads citations msg = citations := by
      simp only [innerTry, h3]
      cases c with
      | str s => simp only [asStr, hparse s rfl]
      | null => rfl
      | num n => rfl
      | bool b => rfl
      | arr xs => rfl
      | obj fs => rfl
    simp only [processMessages, h1, h2, hin]
  · intro msg rest acc s j jc cs h1 h2 h3 hl h4 h5 h6
    have hin : innerTry loads (.arr acc) msg = .arr (acc ++ cs) := by
      simp only [innerTry, h3, asStr, hl, h4, h5, listExtend, h6]
    simp only [processMessages, h1, h2, hin]

/-- C6 witness: concrete runs of the three per-entry behaviors — a direct
`citations` entry appends `B`; an unparsable `content` entry contributes
nothing while a later entry still contributes; a parsable `content` entry
appends the `citations` found inside the parsed document. -/
theorem C6_witness :
    (processMessages (fun _ => none) (.arr [])
        [.obj [("citations", .arr [.str "B"])]] =
      processMessages (fun _ => none) (.arr [.str "B"]) []) ∧
    (processMessages (fun _ => none) (.arr [.str "B"])
        [.obj [("content", .str "notjson")],
         .obj [("citations", .arr [.str "E"])]] =
      processMessages (fun _ => none) (.arr [.str "B"])
        [.obj [("citations", .arr [.str "E"])]]) ∧
    (processMessages
        (fun s => if s = "doc"
          then some (.obj [("citations", .arr [.str "D"])]) else none)
        (.arr []) [.obj [("content", .str "doc")]] =
      processMessages
        (fun s => if s = "doc"
          then some (.obj [("citations", .arr [.str "D"])]) else none)
        (.arr [.str "D"]) []) :=
  ⟨(C6_messages_entries (fun _ => none)).1
      (.obj [("citations", .arr [.str "B"])]) [] [] (.arr [.str "B"])
      [.str "B"] rfl rfl rfl,
   (C6_messages_entries (fun _ => none)).2.1
      (.obj [("content", .str "notjson")])
      [.obj [("citations", .arr [.str "E"])]] (.arr [.str "B"])
      (.str "notjson") rfl rfl rfl (fun _ _ => rfl),
   (C6_messages_entries
      (fun s => if s = "doc"
        then some (.obj [("citations", .arr [.str "D"])]) else none)).2.2
      (.obj [("content", .str "doc")]) [] [] "doc"
      (.obj [("citations", .arr [.str "D"])]) (.arr [.str "D"]) [.str "D"]
      rfl rfl rfl rfl rfl rfl rfl⟩
